import Mathlib

/- Verification of the session-lifecycle core of gotrue-py
   (src/gotrue/_sync/gotrue_client.py and src/supabase_auth/constants.py),
   shallowly embedded in Lean.  Pure functions of the source become Lean
   functions; the client's mutable fields become an explicit state record
   threaded through each operation; Python exceptions become an Except
   result channel.  Since a Python `try`/`except` observes mutations made
   before the raise, stateful operations return `Except PyError α ×
   ClientState` (the state always survives). -/

namespace GoTrue

/-- Python exceptions (and the typed auth errors of gotrue's `errors.py`)
as the code under verification distinguishes them. -/
inductive PyError where
  | jsonDecodeError
  | attributeError
  | typeError
  | valueError
  | runtimeError
  | keyError
  | indexError
  | authRetryableError
  | authSessionMissingError
  | authImplicitGrantRedirectError (message : String) (details : Option (String × String))
  deriving Repr, DecidableEq

instance {ε α : Type} [DecidableEq ε] [DecidableEq α] : DecidableEq (Except ε α) := fun x y =>
  match x, y with
  | .ok a, .ok b => decidable_of_iff (a = b) (by simp)
  | .error a, .error b => decidable_of_iff (a = b) (by simp)
  | .ok _, .error _ => isFalse (by simp)
  | .error _, .ok _ => isFalse (by simp)

/-- Values produced by Python's `json.loads`. -/
inductive Json where
  | null
  | bool (b : Bool)
  | int (n : Int)
  | float (q : ℚ)
  | str (s : String)
  | arr (elems : List Json)
  | obj (fields : List (String × Json))

/-- Python truthiness (`if x:`) of a JSON-decoded value: None, False, 0,
0.0, "", [] and {} are falsy, everything else truthy. -/
def Json.truthy : Json → Bool
  | .null => false
  | .bool b => b
  | .int n => n != 0
  | .float q => q != 0
  | .str s => s != ""
  | .arr elems => !elems.isEmpty
  | .obj fields => !fields.isEmpty

/-- `dict.get(key)` on a JSON object (first binding wins; `json.loads`
deduplicates keys, so the field lists we build have unique keys). -/
def objGet : List (String × Json) → String → Option Json
  | [], _ => none
  | (k, v) :: rest, key => if k = key then some v else objGet rest key

/-- `dict[key] = value` on a JSON object. -/
def objSet : List (String × Json) → String → Json → List (String × Json)
  | [], key, value => [(key, value)]
  | (k, v) :: rest, key, value =>
    if k = key then (key, value) :: rest else (k, v) :: objSet rest key value

/-- Truncation toward zero, the behaviour of Python's `int()` on a float. -/
def ratTrunc (q : ℚ) : Int :=
  if q < 0 then -(Int.floor (-q)) else Int.floor q

/-- The decimal value of a digit character, if it is one. -/
def digitVal (c : Char) : Option Nat :=
  if '0' ≤ c ∧ c ≤ '9' then some (c.toNat - '0'.toNat) else none

/-- Parses a non-empty run of decimal digits. -/
def parseDigitsAux : List Char → Nat → Option Nat
  | [], acc => some acc
  | c :: cs, acc =>
    match digitVal c with
    | some d => parseDigitsAux cs (acc * 10 + d)
    | none => none

def parseDigits : List Char → Option Nat
  | [] => none
  | cs => parseDigitsAux cs 0

/-- Python's `int(s)` on a string, modelled for optionally-signed plain
decimal literals (Python additionally tolerates surrounding whitespace,
a leading '+' and '_' separators, which the claims do not exercise):
anything else raises ValueError (yields `none` here). -/
def int_of_str (s : String) : Option Int :=
  match s.toList with
  | '-' :: rest => (parseDigits rest).map (fun n => -(n : Int))
  | cs => (parseDigits cs).map (fun n => (n : Int))

/-- Python's `int(x)` applied to a JSON-decoded value: ints pass through,
booleans become 0/1, floats truncate toward zero, strings are parsed as
optionally-signed decimal integer literals (a non-parsing string raises
ValueError), and container/None values raise TypeError.  (Python also
tolerates surrounding whitespace, a leading '+' and '_' separators in
string literals; the claims exercise none of those.) -/
def pyInt : Json → Except PyError Int
  | .int n => .ok n
  | .bool b => .ok (if b then 1 else 0)
  | .float q => .ok (ratTrunc q)
  | .str s =>
    match int_of_str s with
    | some n => .ok n
    | none => .error .valueError
  | _ => .error .typeError

/-- Python's `int(s)` on a string (used for `int(expires_in)` in
`_get_session_from_url`). -/
def pyIntOfString (s : String) : Except PyError Int :=
  match int_of_str s with
  | some n => .ok n
  | none => .error .valueError

/-- The Session record.  Modelled from the spec: the concrete pydantic
model lives in `gotrue/types.py`, which is not under src/; the spec's
data-model section (§3) fixes its fields.  The opaque `user` profile is
modelled as an uninterpreted string. -/
structure Session where
  access_token : String
  refresh_token : String
  token_type : String
  expires_in : Option Int := none
  expires_at : Option Int := none
  provider_token : Option String := none
  provider_refresh_token : Option String := none
  user : Option String := none
  deriving Repr, DecidableEq

/-- The raw value `_get_valid_session` receives from the storage
collaborator, classified by how Python treats it: `absent` (None),
`emptyText` (the empty string, falsy like None), `badText` (non-empty
text that `json.loads` rejects) and `jsonText j` (non-empty text that
parses to the JSON value `j`). -/
inductive RawSession where
  | absent
  | emptyText
  | badText
  | jsonText (data : Json)

/-- Embeds `_get_valid_session`.  `parse_obj` abstracts pydantic's
`Session.parse_obj`, which is external library code: the source wraps it
in `try ... except Exception: return None`, so it is modelled as a
function that yields `none` exactly when the real call would raise.
Note that `loads(raw_session)` is NOT inside a try block in the source,
so undecodable text propagates a JSONDecodeError, and `int(...)` is
guarded only by `except ValueError`, so a TypeError (list/dict value)
propagates as well; a truthy non-object value reaches `data.get` and
raises AttributeError. -/
def get_valid_session (parse_obj : List (String × Json) → Option Session) :
    RawSession → Except PyError (Option Session)
  | .absent => .ok none
  | .emptyText => .ok none
  | .badText => .error .jsonDecodeError
  | .jsonText data =>
    if data.truthy = false then .ok none
    else
      match data with
      | .obj fields =>
        if ((objGet fields "access_token").getD .null).truthy = false then .ok none
        else if ((objGet fields "refresh_token").getD .null).truthy = false then .ok none
        else if ((objGet fields "expires_at").getD .null).truthy = false then .ok none
        else
          match pyInt ((objGet fields "expires_at").getD .null) with
          | .ok n => .ok (parse_obj (objSet fields "expires_at" (.int n)))
          | .error .valueError => .ok none
          | .error e => .error e
      | _ => .error .attributeError

/- ------------------------------------------------------------------ -/
/- Auth state notifier: the subscriber registry                       -/
/- ------------------------------------------------------------------ -/

/-- One entry of the `_state_change_emitters` dict.  A callback's
observable effect on the registry is modelled by data: `pops = some k`
means the callback invokes the unsubscribe closure bound to id `k`
(i.e. runs `self._state_change_emitters.pop(k)`); `pops = none` is a
callback that does not touch the registry. -/
structure Subscriber where
  id : String
  pops : Option String
  deriving Repr, DecidableEq

/-- Embeds the `_unsubscribe` closure created by `on_auth_state_change`:
`self._state_change_emitters.pop(unique_id)`.  CPython's `dict.pop`
without a default raises KeyError when the key is absent (and the dict
is left unchanged); on success the entry is removed. -/
def unsubscribe (reg : List Subscriber) (unique_id : String) :
    Except PyError (List Subscriber) :=
  if reg.any (fun t => t.id = unique_id) then
    .ok (reg.filter (fun t => t.id ≠ unique_id))
  else .error .keyError

/-- The outcome of one `_notify_all_subscribers` call: which subscriber
ids were invoked (in order), the final registry, and the exception that
escaped the loop, if any. -/
structure NotifyOutcome where
  invoked : List String
  registry : List Subscriber
  failure : Option PyError
  deriving Repr, DecidableEq

/-- The loop of `_notify_all_subscribers`, mirroring CPython's dict-values
iterator: every advance (including the terminating one) first compares
the dict's current size against the size recorded when iteration began
and raises RuntimeError on mismatch.  `pending` is the list of entries
not yet yielded; since the callbacks only ever remove entries, the very
next advance after a successful removal necessarily raises (the size can
never match again), so the pending list is left as-is after a removal —
which entries it would still hold is unobservable. -/
def notify_go (size0 : Nat) : List Subscriber → List Subscriber → List String → NotifyOutcome
  | pending, cur, invoked =>
    if cur.length ≠ size0 then ⟨invoked, cur, some .runtimeError⟩
    else
      match pending with
      | [] => ⟨invoked, cur, none⟩
      | sub :: rest =>
        match sub.pops with
        | none => notify_go size0 rest cur (invoked ++ [sub.id])
        | some k =>
          if cur.any (fun t => t.id = k) then
            notify_go size0 rest (cur.filter (fun t => t.id ≠ k)) (invoked ++ [sub.id])
          else ⟨invoked ++ [sub.id], cur, some .keyError⟩

/-- Embeds `_notify_all_subscribers`: `for subscription in
self._state_change_emitters.values(): subscription.callback(event, session)`. -/
def notify_all_subscribers (reg : List Subscriber) : NotifyOutcome :=
  notify_go reg.length reg reg []

/- ------------------------------------------------------------------ -/
/- Constants (src/supabase_auth/constants.py)                         -/
/- ------------------------------------------------------------------ -/

def EXPIRY_MARGIN : Int := 10

def MAX_RETRIES : Nat := 10

def RETRY_INTERVAL : ℚ := 2

/- ------------------------------------------------------------------ -/
/- Client state and external collaborators                            -/
/- ------------------------------------------------------------------ -/

/-- `AuthChangeEvent` tags. -/
inductive AuthChangeEvent where
  | SIGNED_IN
  | SIGNED_OUT
  | TOKEN_REFRESHED
  | USER_UPDATED
  | PASSWORD_RECOVERY
  deriving Repr, DecidableEq

/-- The mutable fields of `SyncGoTrueClient` that the session-lifecycle
operations read and write.  The storage slot under `_storage_key` is
modelled at the decoded `Session` level: the client only ever writes
`session.json()` of sessions it holds, and on records the client itself
saved the `json()`/`loads`/`parse_obj` round trip is the identity, so
only the field checks of `_get_valid_session` remain (the JSON-text
level of that function is embedded separately as `get_valid_session`).
`refresh_token_timer` holds the delay of the pending timer, if one is
pending; its callback is always `refresh_token_function`.
`exchange_calls` counts calls to the token-exchange collaborator
(`_refresh_access_token`) and `events` records the broadcast
(event, session) pairs; both are observation instrumentation, not
Python state.  The dispatch of a broadcast to subscriber callbacks is
embedded separately as `notify_all_subscribers`. -/
structure ClientState where
  persist_session : Bool
  auto_refresh_token : Bool
  storage : Option Session
  in_memory_session : Option Session
  refresh_token_timer : Option ℚ
  network_retries : Nat
  exchange_calls : Nat
  events : List (AuthChangeEvent × Option Session)
  deriving Repr, DecidableEq

/-- External collaborators and the clock.  `exchange` models
`_refresh_access_token` at its boundary: given a refresh token it yields
the response's optional session or raises; `fetchUser` models the
user-profile request of `get_user(jwt)`; `b64json` models
`loads(b64decode(seg + "===").decode("utf-8"))` on a JWT payload
segment (stdlib code, outside src/).  `now` is `round(time())`. -/
structure Env where
  now : Int
  exchange : String → Except PyError (Option Session)
  fetchUser : String → Except PyError String
  b64json : String → Except PyError Json

/-- Appends one broadcast to the event trace (see `ClientState`). -/
def notify_event (st : ClientState) (event : AuthChangeEvent) (session : Option Session) :
    ClientState :=
  { st with events := st.events ++ [(event, session)] }

/-- Embeds `_remove_session`: removes the storage entry (or clears the
in-memory slot) and cancels any pending timer. -/
def remove_session (st : ClientState) : ClientState :=
  let st :=
    if st.persist_session then { st with storage := none }
    else { st with in_memory_session := none }
  if st.refresh_token_timer.isSome then { st with refresh_token_timer := none }
  else st

/-- The checks of `_get_valid_session` applied to the decoded storage
slot (see `ClientState` for why the slot is modelled at this level):
absent, empty access or refresh token, and absent-or-zero (falsy)
`expires_at` are all rejected; the `int` conversion and `parse_obj` are
the identity on an already-decoded record. -/
def valid_session_record : Option Session → Option Session
  | none => none
  | some s =>
    if s.access_token = "" then none
    else if s.refresh_token = "" then none
    else
      match s.expires_at with
      | none => none
      | some e => if e = 0 then none else some s

/-- Embeds `_refresh_access_token`: one POST to the token endpoint,
i.e. one call to the token-exchange collaborator. -/
def refresh_access_token (env : Env) (refresh_token : String) (st : ClientState) :
    Except PyError (Option Session) × ClientState :=
  let st := { st with exchange_calls := st.exchange_calls + 1 }
  match env.exchange refresh_token with
  | .ok r => (.ok r, st)
  | .error e => (.error e, st)

/-- Embeds `_start_auto_refresh_token`: cancels any existing timer, then
arms a timer with the given delay unless the delay is non-positive or
auto-refresh is disabled.  The armed callback is `refresh_token_function`. -/
def start_auto_refresh_token (st : ClientState) (value : ℚ) : ClientState :=
  let st :=
    if st.refresh_token_timer.isSome then { st with refresh_token_timer := none }
    else st
  if value ≤ 0 ∨ st.auto_refresh_token = false then st
  else { st with refresh_token_timer := some value }

/-- Embeds `_save_session`: keeps the session in memory when persistence
is off; when `expires_at` is truthy (present and non-zero) computes the
refresh delay `(expire_in - margin) * 1000` with `margin = EXPIRY_MARGIN`
if `expire_in > EXPIRY_MARGIN` else `0.5`, and (re)arms the timer; and
persists the session iff persistence is on and `expires_at` is truthy. -/
def save_session (env : Env) (session : Session) (st : ClientState) : ClientState :=
  let st :=
    if st.persist_session = false then { st with in_memory_session := some session }
    else st
  let st :=
    match session.expires_at with
    | some expire_at =>
      if expire_at ≠ 0 then
        let expire_in : Int := expire_at - env.now
        let margin : ℚ := if expire_in > EXPIRY_MARGIN then (EXPIRY_MARGIN : ℚ) else 1 / 2
        start_auto_refresh_token st (((expire_in : ℚ) - margin) * 1000)
      else st
    | none => st
  match session.expires_at with
  | some expire_at =>
    if st.persist_session ∧ expire_at ≠ 0 then { st with storage := some session }
    else st
  | none => st

/-- Embeds `_call_refresh_token`: raises AuthSessionMissingError on an
empty token or a session-less response; otherwise saves the refreshed
session and broadcasts TOKEN_REFRESHED. -/
def call_refresh_token (env : Env) (refresh_token : String) (st : ClientState) :
    Except PyError Session × ClientState :=
  if refresh_token = "" then (.error .authSessionMissingError, st)
  else
    match refresh_access_token env refresh_token st with
    | (.error e, st) => (.error e, st)
    | (.ok none, st) => (.error .authSessionMissingError, st)
    | (.ok (some session), st) =>
      let st := save_session env session st
      let st := notify_event st .TOKEN_REFRESHED (some session)
      (.ok session, st)

/-- Embeds `get_session`: loads and validates the stored session (the
in-memory slot is used unvalidated when persistence is off), removing an
invalid stored value; a session whose `expires_at` is falsy (absent or
zero) is never considered expired; an expired session triggers
`_call_refresh_token`. -/
def get_session (env : Env) (st : ClientState) :
    Except PyError (Option Session) × ClientState :=
  let (current, st) :=
    if st.persist_session then
      let cs := valid_session_record st.storage
      if cs.isNone then (cs, remove_session st) else (cs, st)
    else (st.in_memory_session, st)
  match current with
  | none => (.ok none, st)
  | some cs =>
    let has_expired :=
      match cs.expires_at with
      | some e => if e ≠ 0 then decide (e ≤ env.now) else false
      | none => false
    if has_expired = false then (.ok (some cs), st)
    else
      match call_refresh_token env cs.refresh_token st with
      | (.ok s, st) => (.ok (some s), st)
      | (.error e, st) => (.error e, st)

/-- The backoff delay the scheduler arms after the code has counted `n`
network retries: `RETRY_INTERVAL ** (n * 100)`. -/
def retry_delay (n : Nat) : ℚ := RETRY_INTERVAL ^ (n * 100)

/-- `isinstance(e, AuthRetryableError)`. -/
def isRetryable : PyError → Bool
  | .authRetryableError => true
  | _ => false

/-- Embeds `refresh_token_function`, the callback armed by
`_start_auto_refresh_token`: increments the retry counter, attempts
`get_session` / `_call_refresh_token` (resetting the counter on
success), and catches every exception — rearming with exponential
backoff when the failure is an AuthRetryableError and the counter is
below MAX_RETRIES, and otherwise doing nothing (the exception is
swallowed; in particular the session is not removed).  The result
channel is structurally `.ok` for every input: no error propagates. -/
def refresh_token_function (env : Env) (st : ClientState) :
    Except PyError Unit × ClientState :=
  let st := { st with network_retries := st.network_retries + 1 }
  let (result, st) :=
    match get_session env st with
    | (.error e, st) => ((.error e : Except PyError Unit), st)
    | (.ok none, st) => (.ok (), st)
    | (.ok (some session), st) =>
      match call_refresh_token env session.refresh_token st with
      | (.error e, st) => ((.error e : Except PyError Unit), st)
      | (.ok _, st) => (.ok (), { st with network_retries := 0 })
  match result with
  | .ok _ => (.ok (), st)
  | .error e =>
    if isRetryable e = true ∧ st.network_retries < MAX_RETRIES then
      (.ok (), start_auto_refresh_token st (retry_delay st.network_retries))
    else (.ok (), st)

/-- The pending timer elapsing: it is no longer pending, and its
callback `refresh_token_function` runs. -/
def fire_refresh_timer (env : Env) (st : ClientState) :
    Except PyError Unit × ClientState :=
  refresh_token_function env { st with refresh_token_timer := none }

/- ------------------------------------------------------------------ -/
/- URL parsing (urllib.parse, as the client uses it)                  -/
/- ------------------------------------------------------------------ -/

/-- Python's `str.split(sep)` for a one-character separator, on the
character list of the string: `"a.b" → ["a","b"]`, `"" → [""]`,
`"a." → ["a",""]`. -/
def splitOnChar (sep : Char) : List Char → List (List Char)
  | [] => [[]]
  | c :: cs =>
    let r := splitOnChar sep cs
    if c = sep then [] :: r
    else
      match r with
      | [] => [[c]]
      | g :: gs => (c :: g) :: gs

/-- `sep.join(groups)` for a one-character separator. -/
def joinChar (sep : Char) : List (List Char) → List Char
  | [] => []
  | [g] => g
  | g :: gs => g ++ sep :: joinChar sep gs

/-- The `query` component `urlparse` extracts: everything after the
first `#` is the fragment (discarded), and within the part before it,
the query is everything after the first `?`. -/
def url_query (url : String) : String :=
  let beforeFrag := (splitOnChar '#' url.toList).headD []
  match splitOnChar '?' beforeFrag with
  | [] => ""
  | [_] => ""
  | _ :: rest => ⟨joinChar '?' rest⟩

/-- Appends one value to a key of a parsed-query dict. -/
def params_add (ps : List (String × List String)) (k v : String) :
    List (String × List String) :=
  if ps.any (fun p => p.1 = k) then
    ps.map (fun p => if p.1 = k then (p.1, p.2 ++ [v]) else p)
  else ps ++ [(k, [v])]

/-- Models `urllib.parse.parse_qs` with its default arguments: fields
are split on `&`, each field on its first `=`; fields without `=` and
fields with an empty value are dropped (`keep_blank_values=False`), so
every value list is non-empty and every stored value is a non-empty
string.  Percent-decoding is not modelled: the parameter values the
claims exercise contain no escapes. -/
def parse_qs (query : String) : List (String × List String) :=
  go (splitOnChar '&' query.toList) []
where
  go : List (List Char) → List (String × List String) → List (String × List String)
    | [], ps => ps
    | piece :: pieces, ps =>
      match splitOnChar '=' piece with
      | [] => go pieces ps
      | [_] => go pieces ps
      | name :: rest =>
        let value := joinChar '=' rest
        if value = [] then go pieces ps
        else go pieces (params_add ps ⟨name⟩ ⟨value⟩)

/-- Embeds `_get_param`: `query_params[name][0]` when the key is
present, else None.  (`parse_qs` never produces an empty value list,
so the `[0]` cannot fail; the `headD` default is unreachable.) -/
def get_param : List (String × List String) → String → Option String
  | [], _ => none
  | (k, vs) :: rest, name => if k = name then some (vs.headD "") else get_param rest name

/-- Python truthiness of an optional string (`if x:` on a value that is
None or a str). -/
def truthyOptStr : Option String → Bool
  | none => false
  | some s => s != ""

/-- Embeds `_is_implicit_grant_flow`: the query parameters (not the
fragment) contain `access_token` or `error_description`. -/
def is_implicit_grant_flow (url : String) : Bool :=
  let params := parse_qs (url_query url)
  params.any (fun p => p.1 = "access_token") || params.any (fun p => p.1 = "error_description")

/-- The body of `_get_session_from_url` after the guard, working on the
parsed query parameters: the error branch (requiring `error_code`, then
`error`), then the sequential presence checks of `access_token`,
`expires_in`, `refresh_token`, `token_type` (each a distinct named
failure, Python-falsy values counting as missing), then
`expires_at = time_now + int(expires_in)`, the user-profile fetch, and
the assembled session with the optional `type` parameter. -/
def session_from_params (env : Env) (params : List (String × List String)) (st : ClientState) :
    Except PyError (Session × Option String) × ClientState :=
  let error_description := get_param params "error_description"
  if truthyOptStr error_description then
    let error_code := get_param params "error_code"
    let error := get_param params "error"
    if truthyOptStr error_code = false then
      (.error (.authImplicitGrantRedirectError "No error_code detected." none), st)
    else if truthyOptStr error = false then
      (.error (.authImplicitGrantRedirectError "No error detected." none), st)
    else
      (.error (.authImplicitGrantRedirectError (error_description.getD "")
        (some (error_code.getD "", error.getD ""))), st)
  else
    let provider_token := get_param params "provider_token"
    let provider_refresh_token := get_param params "provider_refresh_token"
    let access_token := get_param params "access_token"
    if truthyOptStr access_token = false then
      (.error (.authImplicitGrantRedirectError "No access_token detected." none), st)
    else
      let expires_in := get_param params "expires_in"
      if truthyOptStr expires_in = false then
        (.error (.authImplicitGrantRedirectError "No expires_in detected." none), st)
      else
        let refresh_token := get_param params "refresh_token"
        if truthyOptStr refresh_token = false then
          (.error (.authImplicitGrantRedirectError "No refresh_token detected." none), st)
        else
          let token_type := get_param params "token_type"
          if truthyOptStr token_type = false then
            (.error (.authImplicitGrantRedirectError "No token_type detected." none), st)
          else
            match pyIntOfString (expires_in.getD "") with
            | .error e => (.error e, st)
            | .ok n =>
              match env.fetchUser (access_token.getD "") with
              | .error e => (.error e, st)
              | .ok user =>
                (.ok ({ provider_token := provider_token
                        provider_refresh_token := provider_refresh_token
                        access_token := access_token.getD ""
                        expires_in := some n
                        expires_at := some (env.now + n)
                        refresh_token := refresh_token.getD ""
                        token_type := token_type.getD ""
                        user := some user }, get_param params "type"), st)

/-- Embeds `_get_session_from_url`: the implicit-grant-flow guard, then
`session_from_params` on the parsed query. -/
def get_session_from_url (env : Env) (url : String) (st : ClientState) :
    Except PyError (Session × Option String) × ClientState :=
  if is_implicit_grant_flow url = false then
    (.error (.authImplicitGrantRedirectError "Not a valid implicit grant flow url." none), st)
  else session_from_params env (parse_qs (url_query url)) st

/-- Embeds `initialize_from_url`: when the guard recognizes the URL,
recovers the session from it, saves it, broadcasts SIGNED_IN and — for a
`type=recovery` redirect — PASSWORD_RECOVERY; on any failure removes the
session and re-raises.  When the guard does not recognize the URL,
nothing happens. -/
def init_from_url (env : Env) (url : String) (st : ClientState) :
    Except PyError Unit × ClientState :=
  if is_implicit_grant_flow url then
    match get_session_from_url env url st with
    | (.error e, st) => (.error e, remove_session st)
    | (.ok (session, redirect_type), st) =>
      let st := save_session env session st
      let st := notify_event st .SIGNED_IN (some session)
      let st :=
        if redirect_type = some "recovery" then
          notify_event st .PASSWORD_RECOVERY (some session)
        else st
      (.ok (), st)
  else (.ok (), st)

/- ------------------------------------------------------------------ -/
/- set_session                                                        -/
/- ------------------------------------------------------------------ -/

/-- The tail of `set_session` once `expires_at`/`has_expired` have been
determined from the access token: on an expired claim, requires a
refresh token and performs a full refresh (a session-less exchange
response returns an empty AuthResponse without saving); otherwise
fetches the user profile and builds the session directly; either
successful path saves and broadcasts TOKEN_REFRESHED. -/
def set_session_core (env : Env) (access_token refresh_token : String)
    (time_now expires_at : Int) (has_expired : Bool) (st : ClientState) :
    Except PyError (Option Session) × ClientState :=
  if has_expired then
    if refresh_token = "" then (.error .authSessionMissingError, st)
    else
      match refresh_access_token env refresh_token st with
      | (.error e, st) => (.error e, st)
      | (.ok none, st) => (.ok none, st)
      | (.ok (some session), st) =>
        let st := save_session env session st
        let st := notify_event st .TOKEN_REFRESHED (some session)
        (.ok (some session), st)
  else
    match env.fetchUser access_token with
    | .error e => (.error e, st)
    | .ok user =>
      let session : Session :=
        { access_token := access_token
          refresh_token := refresh_token
          user := some user
          token_type := "bearer"
          expires_in := some (expires_at - time_now)
          expires_at := some expires_at }
      let st := save_session env session st
      let st := notify_event st .TOKEN_REFRESHED (some session)
      (.ok (some session), st)

/-- Embeds `set_session`.  The guard `access_token and
access_token.split(".")[1]` indexes the split unconditionally, so a
non-empty access token without a `.` raises IndexError; a non-empty
second segment is fed to `b64decode`/`decode`/`loads` (modelled by
`Env.b64json`) with no exception handler, and `payload.get("exp")` /
`int(payload.get("exp"))` can likewise raise.  All of this happens
before any refresh or save. -/
def set_session (env : Env) (access_token refresh_token : String) (st : ClientState) :
    Except PyError (Option Session) × ClientState :=
  let time_now := env.now
  if access_token = "" then
    set_session_core env access_token refresh_token time_now time_now true st
  else
    match (splitOnChar '.' access_token.toList).get? 1 with
    | none => (.error .indexError, st)
    | some seg =>
      if (⟨seg⟩ : String) = "" then
        set_session_core env access_token refresh_token time_now time_now true st
      else
        match env.b64json ⟨seg⟩ with
        | .error e => (.error e, st)
        | .ok payload =>
          match payload with
          | .obj fields =>
            let expv := (objGet fields "exp").getD .null
            if expv.truthy then
              match pyInt expv with
              | .error e => (.error e, st)
              | .ok exp =>
                set_session_core env access_token refresh_token time_now exp
                  (decide (exp ≤ time_now)) st
            else
              set_session_core env access_token refresh_token time_now time_now true st
          | _ => (.error .attributeError, st)

/- ================================================================== -/
/- Theorems                                                           -/
/- ================================================================== -/

/-- C1 (counterexample): the claim says the Session Validator never
raises on any invalid stored value, including non-JSON text; but
`loads(raw_session)` is not wrapped in a try block, so non-empty text
that is not valid JSON propagates a JSONDecodeError out of
`_get_valid_session`. -/
theorem c1_counterexample :
    get_valid_session (fun _ => none) .badText = .error .jsonDecodeError := rfl

/-- C1 (amended): for an absent or empty stored value, and for stored
text that decodes to a JSON object with a missing-or-falsy
`access_token`, `refresh_token` or `expires_at`, or with a non-empty
string `expires_at` that does not parse as an integer literal, the
validator returns null and raises nothing — for every behaviour of the
external `parse_obj`; but for non-JSON text the decode error
propagates (it is not absorbed into a null session). -/
theorem c1_amended_thm :
    (∀ parse_obj, get_valid_session parse_obj .absent = .ok none) ∧
    (∀ parse_obj, get_valid_session parse_obj .emptyText = .ok none) ∧
    (∀ parse_obj, get_valid_session parse_obj .badText = .error .jsonDecodeError) ∧
    (∀ parse_obj fields,
      ((objGet fields "access_token").getD .null).truthy = false →
      get_valid_session parse_obj (.jsonText (.obj fields)) = .ok none) ∧
    (∀ parse_obj fields,
      ((objGet fields "refresh_token").getD .null).truthy = false →
      get_valid_session parse_obj (.jsonText (.obj fields)) = .ok none) ∧
    (∀ parse_obj fields,
      ((objGet fields "expires_at").getD .null).truthy = false →
      get_valid_session parse_obj (.jsonText (.obj fields)) = .ok none) ∧
    (∀ parse_obj fields s,
      objGet fields "expires_at" = some (.str s) → s ≠ "" → int_of_str s = none →
      get_valid_session parse_obj (.jsonText (.obj fields)) = .ok none) := by
  refine ⟨fun _ => rfl, fun _ => rfl, fun _ => rfl, ?_, ?_, ?_, ?_⟩
  · intro p fields h
    simp only [get_valid_session]
    split_ifs <;> simp_all
  · intro p fields h
    simp only [get_valid_session]
    split_ifs <;> simp_all
  · intro p fields h
    simp only [get_valid_session]
    split_ifs <;> simp_all
  · intro p fields s hget hne htoInt
    simp only [get_valid_session, hget]
    split_ifs <;> simp_all [pyInt, Json.truthy]

/-- C1 (witness for the amended theorem). -/
theorem c1_witness :
    get_valid_session (fun _ => none) (.jsonText (.obj [("access_token", .str "")])) = .ok none ∧
    get_valid_session (fun _ => none)
      (.jsonText (.obj [("access_token", .str "a")])) = .ok none ∧
    get_valid_session (fun _ => none)
      (.jsonText (.obj [("access_token", .str "a"), ("refresh_token", .str "r")])) = .ok none ∧
    get_valid_session (fun _ => none)
      (.jsonText (.obj [("access_token", .str "a"), ("refresh_token", .str "r"),
                        ("expires_at", .str "abc")])) = .ok none := by
  refine ⟨?_, ?_, ?_, ?_⟩
  · exact c1_amended_thm.2.2.2.1 _ _ (by rfl)
  · exact c1_amended_thm.2.2.2.2.1 _ _ (by rfl)
  · exact c1_amended_thm.2.2.2.2.2.1 _ _ (by rfl)
  · exact c1_amended_thm.2.2.2.2.2.2 _ _ "abc" (by rfl) (by decide) (by rfl)

/-- C2 (counterexample): with two registered subscribers where the first
one's callback unsubscribes itself during the notify call, the iteration
over the live dict raises RuntimeError (CPython: "dictionary changed
size during iteration") and the second subscriber is never invoked —
the notification does not complete without error. -/
theorem c2_counterexample :
    (notify_all_subscribers [⟨"a", some "a"⟩, ⟨"b", none⟩]).failure
        = some .runtimeError ∧
    (notify_all_subscribers [⟨"a", some "a"⟩, ⟨"b", none⟩]).invoked = ["a"] := by
  decide

/-- C2 (amended): for every registry of two subscribers with distinct
ids whose first entry unsubscribes itself inside its own callback,
`_notify_all_subscribers` invokes the first subscriber, then the next
iterator advance raises RuntimeError; the second subscriber is not
invoked for that event, and the registry ends with exactly the first
entry removed (the second entry is intact, not corrupted). -/
theorem c2_amended_thm (a b : Subscriber) (ha : a.pops = some a.id)
    (hab : b.id ≠ a.id) :
    notify_all_subscribers [a, b] = ⟨[a.id], [b], some .runtimeError⟩ := by
  unfold notify_all_subscribers
  rw [notify_go]
  rw [if_neg (by simp)]
  rw [ha]
  dsimp only
  rw [if_pos (by simp)]
  have hfilter : (List.filter (fun t => decide (t.id ≠ a.id)) [a, b]) = [b] := by
    simp [hab]
  rw [hfilter, notify_go]
  simp

/-- C2 (witness for the amended theorem). -/
theorem c2_witness :
    notify_all_subscribers [⟨"x", some "x"⟩, ⟨"y", none⟩]
      = ⟨["x"], [⟨"y", none⟩], some .runtimeError⟩ :=
  c2_amended_thm ⟨"x", some "x"⟩ ⟨"y", none⟩ rfl (by decide)

/-- C3 (counterexample): the first unsubscribe removes the id, but a
second unsubscribe for the same id is not an idempotent no-op:
`dict.pop(unique_id)` without a default raises KeyError. -/
theorem c3_counterexample :
    unsubscribe [⟨"a", none⟩] "a" = .ok [] ∧
    unsubscribe ([] : List Subscriber) "a" = .error .keyError := by
  decide

/-- C3 (amended): after an unsubscribe has successfully removed an id
from the registry, calling unsubscribe for that id again raises
KeyError (the registry itself is left unchanged by the failed pop) —
the second call is an error, not an idempotent no-op. -/
theorem c3_amended_thm (reg : List Subscriber) (i : String) (reg2 : List Subscriber)
    (h : unsubscribe reg i = .ok reg2) :
    unsubscribe reg2 i = .error .keyError := by
  simp only [unsubscribe] at h ⊢
  split at h
  · injection h with h2
    subst h2
    rw [if_neg]
    intro hc
    simp only [List.any_eq_true, List.mem_filter, decide_eq_true_eq] at hc
    obtain ⟨x, ⟨hxm, hx1⟩, hx2⟩ := hc
    simp at hx1
    exact hx1 hx2
  · exact absurd h (by simp)

/-- C3 (witness for the amended theorem). -/
theorem c3_witness : unsubscribe ([] : List Subscriber) "s1" = .error .keyError :=
  c3_amended_thm [⟨"s1", none⟩] "s1" [] (by decide)

/-- Inversion of a successful `valid_session_record` check. -/
lemma valid_session_record_some {o : Option Session} {s : Session}
    (h : valid_session_record o = some s) :
    o = some s ∧ s.access_token ≠ "" ∧ s.refresh_token ≠ "" ∧
      ∃ e, s.expires_at = some e ∧ e ≠ 0 := by
  cases o with
  | none => simp [valid_session_record] at h
  | some t =>
    simp only [valid_session_record] at h
    by_cases h1 : t.access_token = ""
    · simp [h1] at h
    by_cases h2 : t.refresh_token = ""
    · simp [h1, h2] at h
    cases he : t.expires_at with
    | none => simp [h1, h2, he] at h
    | some e =>
      by_cases h3 : e = 0
      · simp [h1, h2, he, h3] at h
      · simp [h1, h2, he, h3] at h
        subst h
        exact ⟨rfl, h1, h2, e, he, h3⟩

/-- C4 (counterexample): the timer fires, `get_session` finds a valid
but expired stored session, the refresh fails non-retryably
(AuthSessionMissingError) — and the storage slot is NOT removed: the
bare `except` branch of `refresh_token_function` neither clears the
session nor rearms, it just swallows the error. -/
theorem c4_counterexample :
    (fire_refresh_timer
        ⟨100, fun _ => .error .authSessionMissingError, fun _ => .ok "u",
         fun _ => .error .valueError⟩
        ⟨true, true, some ⟨"a", "r", "bearer", none, some 50, none, none, none⟩,
         none, some 3, 0, 0, []⟩)
      = (.ok (),
         ⟨true, true, some ⟨"a", "r", "bearer", none, some 50, none, none, none⟩,
          none, none, 1, 1, []⟩) := by
  decide

/-- C4 (amended): when the background timer fires on a valid but
expired stored session and the token exchange raises an error that is
either non-retryable or retryable with the retry counter at the
ceiling, no error propagates (the result is `.ok`) and no further timer
is armed — but the session is NOT cleared: the storage slot still holds
the same session (only the retry counter and the exchange-call count
move). -/
theorem c4_amended_thm (env : Env) (st : ClientState) (s : Session) (e : Int)
    (err : PyError)
    (hpersist : st.persist_session = true)
    (hvalid : valid_session_record st.storage = some s)
    (he : s.expires_at = some e)
    (hle : e ≤ env.now)
    (hx : env.exchange s.refresh_token = .error err)
    (hstop : isRetryable err = false ∨ MAX_RETRIES ≤ st.network_retries + 1) :
    fire_refresh_timer env st =
      (.ok (), { st with refresh_token_timer := none,
                         network_retries := st.network_retries + 1,
                         exchange_calls := st.exchange_calls + 1 }) := by
  obtain ⟨hsto, hat, hrt, e2, he2, he0⟩ := valid_session_record_some hvalid
  have heq : e2 = e := by rw [he] at he2; injection he2 with h; exact h.symm
  subst heq
  have hcond : ¬(isRetryable err = true ∧ st.network_retries + 1 < MAX_RETRIES) := by
    rcases hstop with h | h
    · intro hc; rw [hc.1] at h; cases h
    · intro hc; omega
  obtain ⟨ps, ar, sto, im, tim, nr, xc, ev⟩ := st
  simp only at hpersist hvalid hstop hcond
  subst hpersist
  simp only [fire_refresh_timer, refresh_token_function, get_session,
    call_refresh_token, refresh_access_token, hvalid, he2, he0, hx,
    Option.isNone_some, if_true, if_false, decide_eq_true hle, hrt, hcond,
    Bool.false_eq_true, ite_false, ite_true, if_neg, reduceIte]
  simp [hrt, hcond, he0, decide_eq_true hle]

/-- C4 (witness for the amended theorem, exercising the
retryable-at-ceiling disjunct). -/
theorem c4_witness :
    fire_refresh_timer
        ⟨200, fun _ => .error .authRetryableError, fun _ => .ok "u",
         fun _ => .error .valueError⟩
        ⟨true, true, some ⟨"b", "q", "bearer", none, some 150, none, none, none⟩,
         none, some 5, 9, 2, []⟩
      = (.ok (),
         ⟨true, true, some ⟨"b", "q", "bearer", none, some 150, none, none, none⟩,
          none, none, 10, 3, []⟩) :=
  c4_amended_thm _ _ ⟨"b", "q", "bearer", none, some 150, none, none, none⟩ 150
    .authRetryableError rfl (by decide) rfl (by decide) rfl (Or.inr (by decide))

/-- `_start_auto_refresh_token` does not touch the exchange-call count. -/
lemma exchange_calls_start_auto (st : ClientState) (v : ℚ) :
    (start_auto_refresh_token st v).exchange_calls = st.exchange_calls := by
  obtain ⟨ps, ar, sto, im, tim, nr, xc, ev⟩ := st
  unfold start_auto_refresh_token
  dsimp only
  split_ifs <;> rfl

/-- `_save_session` does not touch the exchange-call count. -/
lemma exchange_calls_save (env : Env) (sess : Session) (st : ClientState) :
    (save_session env sess st).exchange_calls = st.exchange_calls := by
  unfold save_session
  cases h : sess.expires_at <;> dsimp only <;>
    split_ifs <;> simp [exchange_calls_start_auto]

/-- `notify_event` does not touch the exchange-call count. -/
lemma exchange_calls_notify (st : ClientState) (ev : AuthChangeEvent)
    (s : Option Session) : (notify_event st ev s).exchange_calls = st.exchange_calls :=
  rfl

/-- C5 (counterexample): an (in-memory) session with `expires_at = 0` —
an epoch second in the past relative to `now = 100` — is returned
unchanged by `get_session` with NO call to the token-exchange
collaborator, because `if current_session.expires_at:` treats the
integer 0 as falsy, i.e. as "no expiry".  This contradicts "for every
session whose expires_at is in the past, get_session triggers exactly
one refresh attempt before returning". -/
theorem c5_counterexample :
    get_session
        ⟨100, fun _ => .ok none, fun _ => .ok "u", fun _ => .error .valueError⟩
        ⟨false, true, none,
         some ⟨"a", "r", "bearer", some 100, some 0, none, none, none⟩,
         none, 0, 0, []⟩
      = (.ok (some ⟨"a", "r", "bearer", some 100, some 0, none, none, none⟩),
         ⟨false, true, none,
          some ⟨"a", "r", "bearer", some 100, some 0, none, none, none⟩,
          none, 0, 0, []⟩) := by
  decide

/-- `_call_refresh_token` with a non-empty token makes exactly one call
to the token-exchange collaborator, whatever the outcome. -/
lemma call_refresh_token_calls (env : Env) (rt : String) (st : ClientState)
    (hrt : rt ≠ "") :
    (call_refresh_token env rt st).2.exchange_calls = st.exchange_calls + 1 := by
  unfold call_refresh_token refresh_access_token
  rw [if_neg hrt]
  dsimp only
  cases env.exchange rt with
  | error e => rfl
  | ok o =>
    cases o with
    | none => rfl
    | some sess => simp [exchange_calls_notify, exchange_calls_save]

/-- C5 (amended): let `s` be the current session (the validated stored
session when persistence is on, or the in-memory slot when it is off).
If `s.expires_at` is unset or lies in the future by more than the
expiry margin, `get_session` returns `s` unchanged and the state — in
particular the exchange-call count — is untouched.  If `s.expires_at`
is set, non-zero (Python-truthy) and not in the future, then whenever
`get_session` returns (rather than raising), exactly one call to the
token-exchange collaborator was made. -/
theorem c5_amended_thm (env : Env) (st : ClientState) (s : Session)
    (hcur : (st.persist_session = true ∧ valid_session_record st.storage = some s) ∨
            (st.persist_session = false ∧ st.in_memory_session = some s)) :
    ((s.expires_at = none ∨ ∃ e, s.expires_at = some e ∧ env.now + EXPIRY_MARGIN < e) →
        get_session env st = (.ok (some s), st)) ∧
    (∀ e r st2, s.expires_at = some e → e ≠ 0 → e ≤ env.now →
        get_session env st = (.ok r, st2) →
        st2.exchange_calls = st.exchange_calls + 1) := by
  constructor
  · intro hfresh
    rcases hcur with ⟨hp, hv⟩ | ⟨hp, him⟩ <;>
      rcases hfresh with h | ⟨e, he, hgt⟩
    · simp [get_session, hp, hv, h]
    · have h0 : decide (e ≤ env.now) = false :=
        decide_eq_false (by simp only [EXPIRY_MARGIN] at hgt; omega)
      simp [get_session, hp, hv, he, h0]
    · simp [get_session, hp, him, h]
    · have h0 : decide (e ≤ env.now) = false :=
        decide_eq_false (by simp only [EXPIRY_MARGIN] at hgt; omega)
      simp [get_session, hp, him, he, h0]
  · intro e r st2 he h0 hle hrun
    have hdec : decide (e ≤ env.now) = true := decide_eq_true hle
    have hmain : ∀ hp : st.persist_session = true,
        valid_session_record st.storage = some s →
        st2.exchange_calls = st.exchange_calls + 1 := by
      intro hp hv
      obtain ⟨hsto, hat, hrt, e2, he2, he0⟩ := valid_session_record_some hv
      have hstep : get_session env st =
          (match call_refresh_token env s.refresh_token st with
           | (Except.ok x, st3) => (Except.ok (some x), st3)
           | (Except.error er, st3) => (Except.error er, st3)) := by
        simp [get_session, hp, hv, he, h0, hdec]
      have hcalls := call_refresh_token_calls env s.refresh_token st hrt
      rw [hstep] at hrun
      rcases hres : call_refresh_token env s.refresh_token st with ⟨res, st3⟩
      rw [hres] at hrun hcalls
      cases res with
      | error er => simp at hrun
      | ok x =>
        simp only [Prod.mk.injEq] at hrun
        rw [← hrun.2]
        exact hcalls
    have hmem : ∀ hp : st.persist_session = false,
        st.in_memory_session = some s →
        st2.exchange_calls = st.exchange_calls + 1 := by
      intro hp him
      have hstep : get_session env st =
          (match call_refresh_token env s.refresh_token st with
           | (Except.ok x, st3) => (Except.ok (some x), st3)
           | (Except.error er, st3) => (Except.error er, st3)) := by
        simp [get_session, hp, him, he, h0, hdec]
      by_cases hrt : s.refresh_token = ""
      · have hfail : call_refresh_token env s.refresh_token st =
            (.error .authSessionMissingError, st) := by
          simp [call_refresh_token, hrt]
        rw [hstep, hfail] at hrun
        simp at hrun
      · have hcalls := call_refresh_token_calls env s.refresh_token st hrt
        rw [hstep] at hrun
        rcases hres : call_refresh_token env s.refresh_token st with ⟨res, st3⟩
        rw [hres] at hrun hcalls
        cases res with
        | error er => simp at hrun
        | ok x =>
          simp only [Prod.mk.injEq] at hrun
          rw [← hrun.2]
          exact hcalls
    rcases hcur with ⟨hp, hv⟩ | ⟨hp, him⟩
    · exact hmain hp hv
    · exact hmem hp him

/-- C5 (witness for the amended theorem, both parts). -/
theorem c5_witness :
    get_session
        ⟨100, fun _ => .ok none, fun _ => .ok "u", fun _ => .error .valueError⟩
        ⟨true, true, some ⟨"a", "r", "bearer", none, some 5000, none, none, none⟩,
         none, none, 0, 0, []⟩
      = (.ok (some ⟨"a", "r", "bearer", none, some 5000, none, none, none⟩),
         ⟨true, true, some ⟨"a", "r", "bearer", none, some 5000, none, none, none⟩,
          none, none, 0, 0, []⟩) ∧
    (get_session
        ⟨100, fun _ => .ok (some ⟨"a2", "r2", "bearer", none, some 0, none, none, none⟩),
         fun _ => .ok "u", fun _ => .error .valueError⟩
        ⟨true, true, some ⟨"a", "r", "bearer", none, some 50, none, none, none⟩,
         none, none, 0, 7, []⟩).2.exchange_calls = 7 + 1 := by
  constructor
  · exact (c5_amended_thm
      ⟨100, fun _ => .ok none, fun _ => .ok "u", fun _ => .error .valueError⟩
      ⟨true, true, some ⟨"a", "r", "bearer", none, some 5000, none, none, none⟩,
       none, none, 0, 0, []⟩
      ⟨"a", "r", "bearer", none, some 5000, none, none, none⟩
      (Or.inl ⟨rfl, by decide⟩)).1 (Or.inr ⟨5000, rfl, by decide⟩)
  · exact (c5_amended_thm
      ⟨100, fun _ => .ok (some ⟨"a2", "r2", "bearer", none, some 0, none, none, none⟩),
       fun _ => .ok "u", fun _ => .error .valueError⟩
      ⟨true, true, some ⟨"a", "r", "bearer", none, some 50, none, none, none⟩,
       none, none, 0, 7, []⟩
      ⟨"a", "r", "bearer", none, some 50, none, none, none⟩
      (Or.inl ⟨rfl, by decide⟩)).2 50
      (some ⟨"a2", "r2", "bearer", none, some 0, none, none, none⟩)
      ⟨true, true, some ⟨"a", "r", "bearer", none, some 50, none, none, none⟩,
       none, none, 0, 8,
       [(.TOKEN_REFRESHED, some ⟨"a2", "r2", "bearer", none, some 0, none, none, none⟩)]⟩
      rfl (by decide) (by decide) (by decide)

/-- C6 (counterexample): saving a session whose `expires_at` is the
integer 0 — non-null, but Python-falsy — neither cancels the existing
pending timer nor arms a new one (and does not persist): `_save_session`
guards the whole scheduling block with `if expire_at:`, so the state is
returned completely unchanged, pending timer included.  This contradicts
"for every save of a session with a non-null expires_at, the scheduler
cancels any existing timer and arms a new one...". -/
theorem c6_counterexample :
    save_session
        ⟨100, fun _ => .ok none, fun _ => .ok "u", fun _ => .error .valueError⟩
        ⟨"a", "r", "bearer", some 100, some 0, none, none, none⟩
        ⟨true, true, none, none, some 7, 0, 0, []⟩
      = ⟨true, true, none, none, some 7, 0, 0, []⟩ := by
  decide

/-- C6 (amended): for every save of a session whose `expires_at` is
present and non-zero (Python-truthy), the timer pending afterwards is
exactly `some ((expire_in - margin) * 1000)` — where
`expire_in = expires_at - now` and `margin` is EXPIRY_MARGIN when
`expire_in` exceeds it and half a second otherwise — provided that
delay is positive and auto-refresh is enabled, and `none` otherwise;
in particular any previously pending timer is cancelled, and (the
timer being a single optional slot) at most one timer is ever
pending. -/
theorem c6_amended_thm (env : Env) (session : Session) (st : ClientState) (e : Int)
    (h1 : session.expires_at = some e) (h2 : e ≠ 0) :
    (save_session env session st).refresh_token_timer =
      (if 0 < (((e - env.now : Int) : ℚ) -
            (if e - env.now > EXPIRY_MARGIN then (EXPIRY_MARGIN : ℚ) else 1 / 2)) * 1000
          ∧ st.auto_refresh_token = true
       then some ((((e - env.now : Int) : ℚ) -
            (if e - env.now > EXPIRY_MARGIN then (EXPIRY_MARGIN : ℚ) else 1 / 2)) * 1000)
       else none) := by
  obtain ⟨ps, ar, sto, im, tim, nr, xc, ev⟩ := st
  simp only [save_session, start_auto_refresh_token, h1, ne_eq, h2, not_false_iff,
    if_true, ite_true]
  dsimp only
  split_ifs <;> simp_all <;> try linarith

/-- C6 (witness for the amended theorem): a save 3900 seconds before
expiry replaces the pending timer (`some 7`) with one of
(3900 − 10) · 1000 = 3890000 ms. -/
theorem c6_witness :
    (save_session
        ⟨100, fun _ => .ok none, fun _ => .ok "u", fun _ => .error .valueError⟩
        ⟨"a", "r", "bearer", none, some 4000, none, none, none⟩
        ⟨true, true, none, none, some 7, 0, 0, []⟩).refresh_token_timer
      = some 3890000 := by
  have h := c6_amended_thm
    ⟨100, fun _ => .ok none, fun _ => .ok "u", fun _ => .error .valueError⟩
    ⟨"a", "r", "bearer", none, some 4000, none, none, none⟩
    ⟨true, true, none, none, some 7, 0, 0, []⟩ 4000 rfl (by decide)
  rw [h]
  norm_num [EXPIRY_MARGIN]

/-- In the C7 scenario (valid expired stored session, retryable
exchange failure), `get_session` propagates the retryable error after
one exchange call, independent of the retry counter. -/
lemma c7_get (nr : Nat) :
    get_session
        ⟨100, fun _ => .error .authRetryableError, fun _ => .ok "u", fun _ => .error .valueError⟩
        ⟨true, true, some ⟨"a", "r", "bearer", none, some 50, none, none, none⟩,
         none, none, nr, 0, []⟩
      = (.error .authRetryableError,
         ⟨true, true, some ⟨"a", "r", "bearer", none, some 50, none, none, none⟩,
          none, none, nr, 1, []⟩) := rfl

/-- C7: after the Nth consecutive retryable background-refresh failure
(1 < N < MAX_RETRIES; the counter was N−1 when the timer fired, so the
code counts N), the scheduler arms a timer with delay
`retry_delay N = RETRY_INTERVAL ^ (N * 100)`, and that delay strictly
exceeds `retry_delay (N−1)`, the one armed after the (N−1)th failure. -/
theorem c7_thm (N : Nat) (h1 : 1 < N) (h2 : N < MAX_RETRIES) :
    (refresh_token_function
        ⟨100, fun _ => .error .authRetryableError, fun _ => .ok "u", fun _ => .error .valueError⟩
        ⟨true, true, some ⟨"a", "r", "bearer", none, some 50, none, none, none⟩,
         none, none, N - 1, 0, []⟩).2.refresh_token_timer
      = some (retry_delay N) ∧
    retry_delay (N - 1) < retry_delay N := by
  have hsub : N - 1 + 1 = N := Nat.sub_add_cancel (by omega)
  have hpos : (0 : ℚ) < retry_delay N := by
    unfold retry_delay RETRY_INTERVAL
    positivity
  constructor
  · simp only [refresh_token_function]
    rw [c7_get (N - 1 + 1)]
    dsimp only
    rw [hsub]
    rw [if_pos ⟨rfl, h2⟩]
    unfold start_auto_refresh_token
    dsimp only
    rw [if_neg]
    rintro (h | h)
    · exact absurd h (not_le.mpr hpos)
    · exact Bool.noConfusion h
  · unfold retry_delay RETRY_INTERVAL
    exact pow_lt_pow_right₀ (by norm_num) (by omega)

/-- C7 (witness). -/
theorem c7_witness :
    (refresh_token_function
        ⟨100, fun _ => .error .authRetryableError, fun _ => .ok "u", fun _ => .error .valueError⟩
        ⟨true, true, some ⟨"a", "r", "bearer", none, some 50, none, none, none⟩,
         none, none, 4, 0, []⟩).2.refresh_token_timer
      = some (retry_delay 5) ∧
    retry_delay 4 < retry_delay 5 :=
  c7_thm 5 (by decide) (by decide)

/-- A parameter `get_param` finds is a key of the dict. -/
lemma get_param_mem {ps : List (String × List String)} {k : String} {v : String}
    (h : get_param ps k = some v) : ps.any (fun p => p.1 = k) = true := by
  induction ps with
  | nil => simp [get_param] at h
  | cons hd tl ih =>
    obtain ⟨k1, vs⟩ := hd
    simp only [get_param] at h
    by_cases hk : k1 = k
    · simp [List.any_cons, hk]
    · rw [if_neg hk] at h
      simp [List.any_cons, ih h]

/-- A Python-truthy parameter is present as a key. -/
lemma truthy_param_any {P : List (String × List String)} {k : String}
    (h : truthyOptStr (get_param P k) = true) :
    P.any (fun p => p.1 = k) = true := by
  cases hp : get_param P k with
  | none => rw [hp] at h; simp [truthyOptStr] at h
  | some v => exact get_param_mem hp

/-- C8: `_get_session_from_url` checks its parameters sequentially and
the first missing (Python-falsy) one wins with its own named error: in
the error branch (`error_description` present) a missing `error_code`
fails with "No error_code detected." whatever `error` is, and then a
missing `error` with "No error detected."; in the token branch the
order is `access_token`, `expires_in`, `refresh_token`, `token_type`,
each absence a distinct named failure.  (The `access_token` conjunct is
stated on `session_from_params` over arbitrary parameters, because on a
URL the guard in `_is_implicit_grant_flow` subsumes it.) -/
theorem c8_thm (env : Env) (st : ClientState) (url : String) :
    (truthyOptStr (get_param (parse_qs (url_query url)) "error_description") = true →
     truthyOptStr (get_param (parse_qs (url_query url)) "error_code") = false →
      get_session_from_url env url st =
        (.error (.authImplicitGrantRedirectError "No error_code detected." none), st)) ∧
    (truthyOptStr (get_param (parse_qs (url_query url)) "error_description") = true →
     truthyOptStr (get_param (parse_qs (url_query url)) "error_code") = true →
     truthyOptStr (get_param (parse_qs (url_query url)) "error") = false →
      get_session_from_url env url st =
        (.error (.authImplicitGrantRedirectError "No error detected." none), st)) ∧
    (∀ params, truthyOptStr (get_param params "error_description") = false →
     truthyOptStr (get_param params "access_token") = false →
      session_from_params env params st =
        (.error (.authImplicitGrantRedirectError "No access_token detected." none), st)) ∧
    (truthyOptStr (get_param (parse_qs (url_query url)) "error_description") = false →
     truthyOptStr (get_param (parse_qs (url_query url)) "access_token") = true →
     truthyOptStr (get_param (parse_qs (url_query url)) "expires_in") = false →
      get_session_from_url env url st =
        (.error (.authImplicitGrantRedirectError "No expires_in detected." none), st)) ∧
    (truthyOptStr (get_param (parse_qs (url_query url)) "error_description") = false →
     truthyOptStr (get_param (parse_qs (url_query url)) "access_token") = true →
     truthyOptStr (get_param (parse_qs (url_query url)) "expires_in") = true →
     truthyOptStr (get_param (parse_qs (url_query url)) "refresh_token") = false →
      get_session_from_url env url st =
        (.error (.authImplicitGrantRedirectError "No refresh_token detected." none), st)) ∧
    (truthyOptStr (get_param (parse_qs (url_query url)) "error_description") = false →
     truthyOptStr (get_param (parse_qs (url_query url)) "access_token") = true →
     truthyOptStr (get_param (parse_qs (url_query url)) "expires_in") = true →
     truthyOptStr (get_param (parse_qs (url_query url)) "refresh_token") = true →
     truthyOptStr (get_param (parse_qs (url_query url)) "token_type") = false →
      get_session_from_url env url st =
        (.error (.authImplicitGrantRedirectError "No token_type detected." none), st)) := by
  have hguard_ed : truthyOptStr (get_param (parse_qs (url_query url)) "error_description") = true →
      is_implicit_grant_flow url = true := by
    intro h
    unfold is_implicit_grant_flow
    dsimp only
    rw [truthy_param_any h]
    simp
  have hguard_at : truthyOptStr (get_param (parse_qs (url_query url)) "access_token") = true →
      is_implicit_grant_flow url = true := by
    intro h
    unfold is_implicit_grant_flow
    dsimp only
    rw [truthy_param_any h]
    simp
  refine ⟨?_, ?_, ?_, ?_, ?_, ?_⟩
  · intro hed hec
    simp [get_session_from_url, hguard_ed hed, session_from_params, hed, hec]
  · intro hed hec her
    simp [get_session_from_url, hguard_ed hed, session_from_params, hed, hec, her]
  · intro params hed hat
    simp [session_from_params, hed, hat]
  · intro hed hat hei
    simp [get_session_from_url, hguard_at hat, session_from_params, hed, hat, hei]
  · intro hed hat hei hrt
    simp [get_session_from_url, hguard_at hat, session_from_params, hed, hat, hei, hrt]
  · intro hed hat hei hrt htt
    simp [get_session_from_url, hguard_at hat, session_from_params, hed, hat, hei, hrt, htt]

/-- C8 (witness, exercising every conjunct). -/
theorem c8_witness :
    get_session_from_url
        ⟨1000, fun _ => .ok none, fun _ => .ok "u", fun _ => .error .valueError⟩
        "http://localhost/?error_description=boom&error=x"
        ⟨true, true, none, none, none, 0, 0, []⟩
      = (.error (.authImplicitGrantRedirectError "No error_code detected." none),
         ⟨true, true, none, none, none, 0, 0, []⟩) ∧
    get_session_from_url
        ⟨1000, fun _ => .ok none, fun _ => .ok "u", fun _ => .error .valueError⟩
        "http://localhost/?error_description=boom&error_code=42"
        ⟨true, true, none, none, none, 0, 0, []⟩
      = (.error (.authImplicitGrantRedirectError "No error detected." none),
         ⟨true, true, none, none, none, 0, 0, []⟩) ∧
    session_from_params
        ⟨1000, fun _ => .ok none, fun _ => .ok "u", fun _ => .error .valueError⟩
        [("other", ["1"])]
        ⟨true, true, none, none, none, 0, 0, []⟩
      = (.error (.authImplicitGrantRedirectError "No access_token detected." none),
         ⟨true, true, none, none, none, 0, 0, []⟩) ∧
    get_session_from_url
        ⟨1000, fun _ => .ok none, fun _ => .ok "u", fun _ => .error .valueError⟩
        "http://localhost/?access_token=X"
        ⟨true, true, none, none, none, 0, 0, []⟩
      = (.error (.authImplicitGrantRedirectError "No expires_in detected." none),
         ⟨true, true, none, none, none, 0, 0, []⟩) ∧
    get_session_from_url
        ⟨1000, fun _ => .ok none, fun _ => .ok "u", fun _ => .error .valueError⟩
        "http://localhost/?access_token=X&expires_in=3600"
        ⟨true, true, none, none, none, 0, 0, []⟩
      = (.error (.authImplicitGrantRedirectError "No refresh_token detected." none),
         ⟨true, true, none, none, none, 0, 0, []⟩) ∧
    get_session_from_url
        ⟨1000, fun _ => .ok none, fun _ => .ok "u", fun _ => .error .valueError⟩
        "http://localhost/?access_token=X&expires_in=3600&refresh_token=Y"
        ⟨true, true, none, none, none, 0, 0, []⟩
      = (.error (.authImplicitGrantRedirectError "No token_type detected." none),
         ⟨true, true, none, none, none, 0, 0, []⟩) := by
  refine ⟨?_, ?_, ?_, ?_, ?_, ?_⟩
  · exact (c8_thm _ _ _).1 (by decide) (by decide)
  · exact (c8_thm _ _ _).2.1 (by decide) (by decide) (by decide)
  · exact (c8_thm
      ⟨1000, fun _ => .ok none, fun _ => .ok "u", fun _ => .error .valueError⟩
      ⟨true, true, none, none, none, 0, 0, []⟩ "").2.2.1
      [("other", ["1"])] (by decide) (by decide)
  · exact (c8_thm _ _ _).2.2.2.1 (by decide) (by decide) (by decide)
  · exact (c8_thm _ _ _).2.2.2.2.1 (by decide) (by decide) (by decide) (by decide)
  · exact (c8_thm _ _ _).2.2.2.2.2 (by decide) (by decide) (by decide) (by decide)
      (by decide)

/-- C9 (counterexample): the scenario URL carries the tokens in its
FRAGMENT (after `#`), but `_is_implicit_grant_flow` parses only the
query component (`urlparse(url).query`), so the URL is not recognized
as an implicit-grant redirect and `initialize_from_url` does nothing:
no session is produced, no SIGNED_IN is emitted. -/
theorem c9_counterexample :
    is_implicit_grant_flow
        "http://localhost/#access_token=X&expires_in=3600&refresh_token=Y&token_type=bearer"
      = false ∧
    init_from_url
        ⟨1000, fun _ => .error .valueError, fun _ => .ok "u", fun _ => .error .valueError⟩
        "http://localhost/#access_token=X&expires_in=3600&refresh_token=Y&token_type=bearer"
        ⟨true, true, none, none, none, 0, 0, []⟩
      = (.ok (), ⟨true, true, none, none, none, 0, 0, []⟩) := by
  decide

/-- C9 (amended): with the tokens in the QUERY string (`?...`) the URL
is recognized, and initialization from it persists a Session with
`expires_at = now + 3600` (here 1000 + 3600 = 4600), arms the refresh
timer and emits SIGNED_IN; with `&type=recovery` appended it emits
SIGNED_IN and then PASSWORD_RECOVERY. -/
theorem c9_amended_thm :
    is_implicit_grant_flow
        "http://localhost/?access_token=X&expires_in=3600&refresh_token=Y&token_type=bearer"
      = true ∧
    init_from_url
        ⟨1000, fun _ => .error .valueError, fun _ => .ok "u", fun _ => .error .valueError⟩
        "http://localhost/?access_token=X&expires_in=3600&refresh_token=Y&token_type=bearer"
        ⟨true, true, none, none, none, 0, 0, []⟩
      = (.ok (),
         ⟨true, true, some ⟨"X", "Y", "bearer", some 3600, some 4600, none, none, some "u"⟩,
          none, some 3590000, 0, 0,
          [(.SIGNED_IN, some ⟨"X", "Y", "bearer", some 3600, some 4600, none, none, some "u"⟩)]⟩) ∧
    init_from_url
        ⟨1000, fun _ => .error .valueError, fun _ => .ok "u", fun _ => .error .valueError⟩
        "http://localhost/?access_token=X&expires_in=3600&refresh_token=Y&token_type=bearer&type=recovery"
        ⟨true, true, none, none, none, 0, 0, []⟩
      = (.ok (),
         ⟨true, true, some ⟨"X", "Y", "bearer", some 3600, some 4600, none, none, some "u"⟩,
          none, some 3590000, 0, 0,
          [(.SIGNED_IN, some ⟨"X", "Y", "bearer", some 3600, some 4600, none, none, some "u"⟩),
           (.PASSWORD_RECOVERY,
            some ⟨"X", "Y", "bearer", some 3600, some 4600, none, none, some "u"⟩)]⟩) := by
  refine ⟨by decide, ?_, ?_⟩
  · have hg : is_implicit_grant_flow
        "http://localhost/?access_token=X&expires_in=3600&refresh_token=Y&token_type=bearer"
        = true := by decide
    have hsess : get_session_from_url
          ⟨1000, fun _ => .error .valueError, fun _ => .ok "u", fun _ => .error .valueError⟩
          "http://localhost/?access_token=X&expires_in=3600&refresh_token=Y&token_type=bearer"
          ⟨true, true, none, none, none, 0, 0, []⟩
        = (.ok ((⟨"X", "Y", "bearer", some 3600, some 4600, none, none, some "u"⟩ : Session),
                none),
           ⟨true, true, none, none, none, 0, 0, []⟩) := by
      decide
    simp only [init_from_url, hg, if_true, ite_true, hsess]
    norm_num [save_session, start_auto_refresh_token, notify_event, EXPIRY_MARGIN]
    simp
  · have hg : is_implicit_grant_flow
        "http://localhost/?access_token=X&expires_in=3600&refresh_token=Y&token_type=bearer&type=recovery"
        = true := by decide
    have hsess : get_session_from_url
          ⟨1000, fun _ => .error .valueError, fun _ => .ok "u", fun _ => .error .valueError⟩
          "http://localhost/?access_token=X&expires_in=3600&refresh_token=Y&token_type=bearer&type=recovery"
          ⟨true, true, none, none, none, 0, 0, []⟩
        = (.ok ((⟨"X", "Y", "bearer", some 3600, some 4600, none, none, some "u"⟩ : Session),
                some "recovery"),
           ⟨true, true, none, none, none, 0, 0, []⟩) := by
      decide
    simp only [init_from_url, hg, if_true, ite_true, hsess]
    norm_num [save_session, start_auto_refresh_token, notify_event, EXPIRY_MARGIN]

/-- C10: `set_session`'s guard `access_token and
access_token.split(".")[1]` makes a three-segment JWT-shaped token a
precondition: for a non-empty access token with no `.` separator the
`[1]` index raises a bare IndexError, and for a non-empty second
segment that `b64decode`/`decode`/`loads` rejects, that decode error
propagates — in both cases before any refresh or save (the state is
returned untouched), and as an unstructured exception, not a typed
auth error. -/
theorem c10_thm :
    (∀ (env : Env) (st : ClientState) (tok rt : String),
        tok ≠ "" → (splitOnChar '.' tok.toList).get? 1 = none →
        set_session env tok rt st = (.error .indexError, st)) ∧
    (∀ (env : Env) (st : ClientState) (tok rt : String) (seg : List Char) (e : PyError),
        tok ≠ "" → (splitOnChar '.' tok.toList).get? 1 = some seg →
        (⟨seg⟩ : String) ≠ "" → env.b64json ⟨seg⟩ = .error e →
        set_session env tok rt st = (.error e, st)) := by
  constructor
  · intro env st tok rt htok hsplit
    simp only [String.toList, List.get?_eq_getElem?] at hsplit
    simp [set_session, htok, hsplit]
  · intro env st tok rt seg e htok hsplit hseg hb64
    simp only [String.toList, List.get?_eq_getElem?] at hsplit
    simp [set_session, htok, hsplit, hseg, hb64]

/-- C10 (witness): "abcdef" has no dot, so IndexError; "aa.bb.cc" has
the undecodable second segment "bb", so the decoder's error
propagates; the state is unchanged in both cases. -/
theorem c10_witness :
    set_session ⟨100, fun _ => .ok none, fun _ => .ok "u", fun _ => .error .valueError⟩
        "abcdef" "r" ⟨true, true, none, none, none, 0, 0, []⟩
      = (.error .indexError, ⟨true, true, none, none, none, 0, 0, []⟩) ∧
    set_session ⟨100, fun _ => .ok none, fun _ => .ok "u", fun _ => .error .valueError⟩
        "aa.bb.cc" "r" ⟨true, true, none, none, none, 0, 0, []⟩
      = (.error .valueError, ⟨true, true, none, none, none, 0, 0, []⟩) := by
  constructor
  · exact c10_thm.1 _ _ "abcdef" "r" (by decide) (by decide)
  · exact c10_thm.2 _ _ "aa.bb.cc" "r" ['b', 'b'] .valueError (by decide) (by decide)
      (by decide) (by rfl)

end GoTrue
